import Mathlib

/-!
Verification of the core of the `siteaudit` backend (source: `filex2.py`):
the on-page crawl-and-classify pipeline, the semicolon-delimited flat-table
response parser, the issue-taxonomy mapper with its summary aggregator, and
the paginated issue-detail aggregator.  Network effects (the HTTP responses)
are passed in as explicit inputs; everything else is translated directly
from the Python source.
-/

/-! ## Python string primitives used by the source -/

/-- Python whitespace test for the characters relevant here (`str.strip`,
`str.split`, and the regex class `\s` agree on these). -/
def pyIsSpace (c : Char) : Bool :=
  c == ' ' || c == '\t' || c == '\n' || c == '\r' || c == '\x0b' || c == '\x0c'

/-- `str.strip()` with no argument: drop leading and trailing whitespace. -/
def pyStrip (s : String) : String :=
  String.mk (((s.toList.dropWhile pyIsSpace).reverse.dropWhile pyIsSpace).reverse)

/-- Helper for `str.split(sep)` with a one-character separator: walks the
character list keeping the current (reversed) field. -/
def splitOnCharAux (c : Char) : List Char → List Char → List (List Char)
  | [], cur => [cur.reverse]
  | a :: rest, cur =>
    if a == c then cur.reverse :: splitOnCharAux c rest []
    else splitOnCharAux c rest (a :: cur)

/-- Python `s.split(c)` for a single-character separator: keeps empty
fields, and the empty string splits to one empty field. -/
def pySplitChar (s : String) (c : Char) : List String :=
  (splitOnCharAux c s.toList []).map String.mk

/-- Helper for `str.split()` with no argument: split on runs of whitespace,
producing no empty tokens. -/
def splitWsAux : List Char → List Char → List (List Char)
  | [], cur => if cur.isEmpty then [] else [cur.reverse]
  | a :: rest, cur =>
    if pyIsSpace a then
      (if cur.isEmpty then splitWsAux rest [] else cur.reverse :: splitWsAux rest [])
    else splitWsAux rest (a :: cur)

/-- Python `s.split()` (no argument). -/
def pySplitWs (s : String) : List String :=
  (splitWsAux s.toList []).map String.mk

/-- `list.startswith` test on character lists (Python `str.startswith`). -/
def listStartsWith : List Char → List Char → Bool
  | _, [] => true
  | [], _ :: _ => false
  | a :: s, b :: p => a == b && listStartsWith s p

/-- Python `pat in s` substring test, on character lists. -/
def listContainsSub : List Char → List Char → Bool
  | [], pat => pat.isEmpty
  | s@(_ :: rest), pat => listStartsWith s pat || listContainsSub rest pat

/-- Python `s.startswith(p)`. -/
def pyStartsWith (s p : String) : Bool :=
  listStartsWith s.toList p.toList

/-- Python `s.upper()` (the source only ever feeds it ASCII bodies). -/
def pyUpper (s : String) : String :=
  String.mk (s.toList.map Char.toUpper)

/-- One insertion into a Python `dict` modelled as an association list:
a repeated key keeps its first position but takes the new value. -/
def dictInsert (m : List (String × String)) (k v : String) : List (String × String) :=
  if m.any (fun p => p.1 == k) then m.map (fun p => if p.1 == k then (k, v) else p)
  else m ++ [(k, v)]

/-- Python `dict(pairs)`: left-to-right insertion with last-value-wins. -/
def pyDict (pairs : List (String × String)) : List (String × String) :=
  pairs.foldl (fun m p => dictInsert m p.1 p.2) []

/-- Python `dict(zip(ks, vs))`: pair headers with values positionally
(truncating to the shorter list) and build the dict. -/
def pyDictZip (ks vs : List String) : List (String × String) :=
  pyDict (ks.zip vs)

/-! ## Flat-table parser (`parse_response`, filex2.py lines 230-237) -/

/-- Result shape of `parse_response`: the Python function returns either a
single dict (exactly one data line) or a list of dicts. -/
inductive ParseResult where
  | single (m : List (String × String))
  | multi (ms : List (List (String × String)))
deriving DecidableEq

/-- `parse_response(text)` from the source:
strip the text, split into lines, return `None` for fewer than 2 lines,
one `dict(zip(headers, fields))` for exactly one data line, and a list of
such dicts for more. -/
def parse_response (text : String) : Option ParseResult :=
  let lines := pySplitChar (pyStrip text) '\n'
  match lines with
  | l0 :: l1 :: rest =>
    let headers := pySplitChar l0 ';'
    if rest.isEmpty then some (.single (pyDictZip headers (pySplitChar l1 ';')))
    else some (.multi ((l1 :: rest).map (fun line => pyDictZip headers (pySplitChar line ';'))))
  | _ => none

/-! ## Flat-text API request (`make_request`, filex2.py lines 240-248)

The HTTP exchange is passed in as an input: `none` models any raised
exception (the bare `except: pass`), `some (status, body)` a completed
response. -/

/-- `make_request` success test and parse: status 200 and no occurrence of
`"ERROR"` in the uppercased body; otherwise (and on any exception) `None`. -/
def make_request (resp : Option (Nat × String)) : Option ParseResult :=
  match resp with
  | none => none
  | some (status, body) =>
    if status == 200 && !(listContainsSub (pyUpper body).toList "ERROR".toList) then
      parse_response body
    else none

/-! ## On-page crawler (`crawl_website_onpage`, filex2.py lines 166-227)

The BeautifulSoup extraction results are modelled as a `PageDoc`: the raw
attribute and text values the source reads off the parsed tree.  The HTTP
fetch and the parse are passed in as an `Except`: `.error e` models any
exception (network error, non-2xx raised by `raise_for_status`, timeout,
parse failure) with `e` the exception text captured by `str(e)`. -/

/-- URL normalization at line 168 of the source:
`url = domain if domain.startswith('http') else f'https://{domain}'`. -/
def normalize_url (domain : String) : String :=
  if pyStartsWith domain "http" then domain else "https://" ++ domain

/-- A claim-side reading of "has a scheme": the string contains the
scheme separator `"://"`.  Used only to compare the specification text
with `normalize_url`, which tests `startswith("http")` instead. -/
def hasSchemeSeparator (s : String) : Bool :=
  listContainsSub s.toList "://".toList

/-- The values the source reads from the parsed HTML tree. -/
structure PageDoc where
  /-- `content` attribute of the `meta name="description"` tag; `none`
  when the tag or the attribute is absent (falsy lookup in the source). -/
  metaDescAttr : Option String
  /-- text of the `title` element; `none` when absent. -/
  titleText : Option String
  /-- stripped text of each `h1` tag, in document order. -/
  h1Texts : List String
  h2Count : Nat
  h3Count : Nat
  h4Count : Nat
  /-- document text after `script`, `style`, `nav`, `footer` and `header`
  elements are decomposed (`soup.get_text`). -/
  bodyText : String
  /-- `alt` attribute of each `img` tag; `none` when absent. -/
  imageAlts : List (Option String)
deriving DecidableEq

/-- Truthiness test `img.get('alt')` from line 203: the attribute is
present and non-empty. -/
def hasAlt (a : Option String) : Bool :=
  match a with
  | some s => !(s == "")
  | none => false

/-- The success dictionary built at lines 206-224 of the source. -/
structure PageSignals where
  meta_description : Option String
  meta_desc_length : Nat
  meta_desc_status : String
  title_tag : Option String
  title_length : Nat
  title_status : String
  h1_count : Nat
  h1_status : String
  h1_text : List String
  h2_count : Nat
  h3_count : Nat
  h4_count : Nat
  word_count : Nat
  content_status : String
  images_total : Nat
  images_without_alt : Nat
deriving DecidableEq

/-- The extraction and classification body of `crawl_website_onpage`
(lines 173-224), translated clause by clause. -/
def classify_page (doc : PageDoc) : PageSignals :=
  let meta_description : Option String :=
    match doc.metaDescAttr with
    | some s => if s == "" then none else some s
    | none => none
  let meta_desc_length : Nat :=
    match meta_description with
    | some s => s.length
    | none => 0
  let title_length : Nat :=
    match doc.titleText with
    | some s => s.length
    | none => 0
  let h1_count := doc.h1Texts.length
  let word_count := (pySplitWs doc.bodyText).length
  let images_total := doc.imageAlts.length
  let images_with_alt := (doc.imageAlts.filter hasAlt).length
  { meta_description := meta_description
    meta_desc_length := meta_desc_length
    meta_desc_status := if 150 ≤ meta_desc_length ∧ meta_desc_length ≤ 160 then "Good" else "Needs Fix"
    title_tag := doc.titleText
    title_length := title_length
    title_status := if 50 ≤ title_length ∧ title_length ≤ 60 then "Good" else "Needs Fix"
    h1_count := h1_count
    h1_status := if h1_count == 1 then "Good" else if h1_count > 1 then "Multiple" else "Missing"
    h1_text := doc.h1Texts
    h2_count := doc.h2Count
    h3_count := doc.h3Count
    h4_count := doc.h4Count
    word_count := word_count
    content_status := if word_count ≥ 1000 then "Good" else if word_count < 300 then "Thin" else "Moderate"
    images_total := images_total
    images_without_alt := images_total - images_with_alt }

/-- Return value of `crawl_website_onpage`: the success dictionary, or the
failure dictionary from line 227 carrying only the error text. -/
inductive CrawlResult where
  | success (signals : PageSignals)
  | failure (error : String)
deriving DecidableEq

/-- `crawl_website_onpage`: the whole body sits in a `try` block whose
handler returns the failure dictionary, so the function is total in the
fetch-and-parse outcome. -/
def crawl_website_onpage (fetch : Except String PageDoc) : CrawlResult :=
  match fetch with
  | .ok doc => .success (classify_page doc)
  | .error e => .failure e

/-- `crawl_success` key of the result dictionary. -/
def CrawlResult.crawl_success : CrawlResult → Bool
  | .success _ => true
  | .failure _ => false

/-- `error` key of the result dictionary (absent on success). -/
def CrawlResult.errorMessage : CrawlResult → Option String
  | .success _ => none
  | .failure e => some e

/-- The signal fields of the result dictionary (absent on failure). -/
def CrawlResult.signals : CrawlResult → Option PageSignals
  | .success s => some s
  | .failure _ => none

/-! ## Issue taxonomy (`ISSUE_MAPPING`, filex2.py lines 33-136) -/

/-- The static issue-ID-to-name table, verbatim from the source. -/
def ISSUE_MAPPING : List (Nat × String) :=
  [(1, "5xx errors"),
   (2, "4xx errors"),
   (3, "Title tag is missing or empty"),
   (4, "Blocked from crawling"),
   (6, "Duplicate title tag"),
   (7, "Duplicate content"),
   (8, "Broken internal links"),
   (9, "Pages not crawled"),
   (10, "DNS resolution issue"),
   (11, "We couldn't open the page's URL"),
   (13, "Broken internal images"),
   (15, "Duplicate meta descriptions"),
   (16, "Invalid robots.txt format"),
   (17, "Invalid sitemap.xml format"),
   (18, "Incorrect pages found in"),
   (19, "www resolve issues"),
   (20, "Viewport not configured"),
   (21, "Large HTML page size"),
   (22, "Missing canonical tags in AMP pages"),
   (26, "Non-secure pages"),
   (27, "Certificate Expiration"),
   (28, "Old security protocol version"),
   (29, "Certificate registered to incorrect"),
   (30, "Issues with mixed content"),
   (32, "Neither canonical URL nor 301 redirect from HTTP homepage"),
   (33, "Redirect chains and loops"),
   (34, "AMP Pages with HTML Issues"),
   (35, "AMP Pages with Style and Layout"),
   (36, "AMP Pages with Templating Issues"),
   (38, "Broken canonical URLs"),
   (39, "Multiple canonical URLs"),
   (40, "Meta refresh redirects"),
   (41, "Broken internal JavaScript and CSS"),
   (42, "Insecure encryption algorithms"),
   (43, "Sitemap file too large"),
   (44, "Malformed links"),
   (45, "Structured data that contains"),
   (46, "Viewport width not set"),
   (111, "Slow page load speed"),
   (12, "Broken external links"),
   (14, "Broken external images"),
   (31, "Links lead to HTTP pages for HTTPS"),
   (101, "Title element is too short"),
   (102, "Title element is too long"),
   (103, "Missing h1"),
   (104, "Multiple h1 tags"),
   (105, "Duplicate content in h1 and title"),
   (106, "Missing meta description"),
   (108, "Too many on-page links"),
   (109, "Temporary redirects"),
   (110, "Missing ALT attributes"),
   (112, "Low text to HTML ratio"),
   (113, "Too many URL parameters"),
   (114, "Missing hreflang and lang attributes"),
   (115, "Encoding not declared"),
   (116, "Doctype not declared"),
   (117, "Low word count"),
   (120, "Incompatible plugins used"),
   (121, "Frames used"),
   (122, "Underscores in URL"),
   (123, "Nofollow attributes in internal links"),
   (124, "Sitemap.xml not specified in"),
   (125, "Sitemap.xml not found"),
   (126, "HTTPS encryption not used"),
   (127, "No SNI support"),
   (128, "HTTP URLs in sitemap.xml for HTTPS"),
   (129, "Uncompressed pages"),
   (130, "Disallowed internal resources"),
   (131, "Uncompressed JavaScript and CSS"),
   (132, "Uncached JavaScript and CSS files"),
   (133, "Too large JavaScript and CSS total"),
   (134, "Too many JavaScript and CSS files"),
   (135, "Unminified JavaScript and CSS files"),
   (136, "Warning - Too long URLs"),
   (137, "Llms.txt not found"),
   (201, "Too long URLs"),
   (202, "Nofollow attributes in external links"),
   (203, "Robots.txt not found"),
   (205, "No HSTS support"),
   (206, "Orphaned pages (Google Analytics)"),
   (207, "Orphaned sitemap pages"),
   (208, "Pages have high Document"),
   (209, "Blocked by X-Robots-Tag: noindex HTTP header"),
   (210, "Disallowed external resources"),
   (211, "Broken external JavaScript and CSS"),
   (212, "Page crawl depth"),
   (213, "Pages with only one internal link"),
   (214, "Permanent redirects"),
   (215, "Resources formatted as page links"),
   (216, "Links with no anchor text"),
   (217, "Links with non-descriptive anchor"),
   (218, "External pages or resources with 403 HTTP status code"),
   (219, "Llms.txt has formatting issues"),
   (220, "Too much content"),
   (221, "Outdated content"),
   (222, "Low semantic HTML usage"),
   (223, "Content not optimized")]

/-- `ISSUE_MAPPING.get(issue_id, fallback)`. -/
def issueName (issue_id : Nat) : String :=
  (ISSUE_MAPPING.lookup issue_id).getD ("Unknown Issue " ++ toString issue_id)

/-! ## Issue summary aggregator (`get_all_issues_summary`, lines 362-420)

The JSON response is modelled as `AuditData`; an `Option AuditData` input
with value `none` models any exception in the `try` block (transport error,
`raise_for_status`, JSON or key errors). -/

/-- One entry of the `errors` / `warnings` / `notices` arrays.  `delta` is
`none` when the key is absent from the JSON object. -/
structure IssueEntry where
  id : Nat
  count : Int
  delta : Option Int
deriving DecidableEq

/-- The decoded snapshot response; each section is `none` when its key is
absent from the response object. -/
structure AuditData where
  snapshot_id : Option String
  errors : Option (List IssueEntry)
  warnings : Option (List IssueEntry)
  notices : Option (List IssueEntry)
deriving DecidableEq

/-- One dictionary appended to `issues_data` in the source. -/
structure IssueRecord where
  issue_id : Nat
  issue_name : String
  severity : String
  count : Int
  delta : Int
deriving DecidableEq

/-- The record built for one entry of a section (lines 381-387 and the two
copies for warnings and notices). -/
def mkIssueRecord (sev : String) (e : IssueEntry) : IssueRecord :=
  { issue_id := e.id
    issue_name := issueName e.id
    severity := sev
    count := e.count
    delta := e.delta.getD 0 }

/-- The per-section loop of the source: walk the entries in order,
appending a record for each entry with `count > 0`. -/
def processSection (sev : String) : List IssueEntry → List IssueRecord → List IssueRecord
  | [], acc => acc
  | e :: rest, acc =>
    if 0 < e.count then processSection sev rest (acc ++ [mkIssueRecord sev e])
    else processSection sev rest acc

/-- `get_all_issues_summary`: process the three sections in order
(errors, then warnings, then notices), skipping absent sections; on any
exception return the empty list and no snapshot id. -/
def get_all_issues_summary (resp : Option AuditData) : List IssueRecord × Option String :=
  match resp with
  | none => ([], none)
  | some data =>
    let issues0 : List IssueRecord := []
    let issues1 := match data.errors with
      | some es => processSection "Error" es issues0
      | none => issues0
    let issues2 := match data.warnings with
      | some ws => processSection "Warning" ws issues1
      | none => issues1
    let issues3 := match data.notices with
      | some ns => processSection "Notice" ns issues2
      | none => issues2
    (issues3, data.snapshot_id)

/-- Declarative description of one processed section: the records of the
entries with positive count, in entry order. -/
def sectionRecords (sev : String) (es : List IssueEntry) : List IssueRecord :=
  (es.filter (fun e => decide (0 < e.count))).map (mkIssueRecord sev)

/-- Severity rank used by the consuming sort (line 282 of the source):
Error before Warning before Notice. -/
def sevRank (sev : String) : Nat :=
  if sev == "Error" then 0 else if sev == "Warning" then 1 else 2

/-! ## Paginated detail aggregator (`get_issue_details`, lines 423-465)

The provider is modelled as a function from the requested page number to
the decoded JSON response.  The `while True` loop is given explicit fuel;
`none` models the case where the fuel runs out before the loop stops.  The
returned triple also records the list of page numbers requested, in
request order, so that theorems can speak about which requests were
issued. -/

/-- One decoded detail response: the `data` array (absent when the key is
missing) and the `total` field (absent when the key is missing). -/
structure DetailResponse where
  data : Option (List String)
  total : Option Nat
deriving DecidableEq

/-- Records served for a page number: the `data` array, or `[]` when the
key is absent. -/
def pageRecs (resp : Nat → DetailResponse) (p : Nat) : List String :=
  (resp p).data.getD []

/-- The loop body of `get_issue_details`: request the current page; stop
with the accumulated records and the last responses total when the `data`
key is absent, the page is empty, or the accumulated length has reached
`total`; otherwise continue with the next page number. -/
def get_issue_details_go (resp : Nat → DetailResponse) :
    Nat → Nat → List String → List Nat → Option (List String × Nat × List Nat)
  | 0, _, _, _ => none
  | fuel + 1, page, acc, reqs =>
    let d := resp page
    match d.data with
    | none => some (acc, d.total.getD 0, reqs ++ [page])
    | some pages_data =>
      let total_count := d.total.getD 0
      if pages_data.isEmpty then some (acc, total_count, reqs ++ [page])
      else
        let acc2 := acc ++ pages_data
        if total_count ≤ acc2.length then some (acc2, total_count, reqs ++ [page])
        else get_issue_details_go resp fuel (page + 1) acc2 (reqs ++ [page])

/-- `get_issue_details`: run the loop from page 1 with nothing collected. -/
def get_issue_details (resp : Nat → DetailResponse) (fuel : Nat) :
    Option (List String × Nat × List Nat) :=
  get_issue_details_go resp fuel 1 [] []

/-! ## Request timeouts at the four call sites

Each `requests.get` call site of the core, with the `timeout` argument it
passes (`none` when the source passes no timeout at all). -/

/-- Line 170: `requests.get(url, headers=headers, timeout=10, ...)`. -/
def crawl_request_timeout : Option Nat := some 10

/-- Line 243: `requests.get(url, params=params, timeout=30)`. -/
def make_request_timeout : Option Nat := some 30

/-- Line 368 (snapshot request in `get_all_issues_summary`):
`requests.get(url, params=params)` — no timeout argument. -/
def snapshot_request_timeout : Option Nat := none

/-- Line 440 (each page request in `get_issue_details`):
`requests.get(url, params=params)` — no timeout argument. -/
def issue_details_request_timeout : Option Nat := none

/-- The synthetic audit response from the spec: snapshot "S1", errors
id 3 count 5 and id 999 count 0, one warning id 101 count 2 delta -1. -/
def sampleAudit : AuditData :=
  { snapshot_id := some "S1"
    errors := some [⟨3, 5, none⟩, ⟨999, 0, none⟩]
    warnings := some [⟨101, 2, some (-1)⟩]
    notices := none }

/-- The three-page provider from the spec scenario: pages 1 and 2 serve
100 records, page 3 serves 37, every response reports a grand total of
237; pages past 3 would serve 100 more records if they were requested. -/
def resp237 (p : Nat) : DetailResponse :=
  if p = 3 then { data := some (List.replicate 37 "r"), total := some 237 }
  else { data := some (List.replicate 100 "r"), total := some 237 }


/-! ## Helper lemmas -/

theorem str_ite_eq_then {c : Prop} [Decidable c] {a b r : String} (ha : a = r) (hb : b ≠ r) :
    ((if c then a else b) = r) ↔ c := by
  split_ifs with h <;> simp [ha, hb, h]

theorem str_ite_eq_else {c : Prop} [Decidable c] {a b r : String} (ha : a ≠ r) (hb : b = r) :
    ((if c then a else b) = r) ↔ ¬ c := by
  split_ifs with h <;> simp [ha, hb, h]

theorem meta_status_eq (doc : PageDoc) :
    (classify_page doc).meta_desc_status =
      (if 150 ≤ (classify_page doc).meta_desc_length ∧ (classify_page doc).meta_desc_length ≤ 160
       then "Good" else "Needs Fix") := rfl

theorem title_status_eq (doc : PageDoc) :
    (classify_page doc).title_status =
      (if 50 ≤ (classify_page doc).title_length ∧ (classify_page doc).title_length ≤ 60
       then "Good" else "Needs Fix") := rfl

theorem h1_status_eq (doc : PageDoc) :
    (classify_page doc).h1_status =
      (if (classify_page doc).h1_count == 1 then "Good"
       else if (classify_page doc).h1_count > 1 then "Multiple" else "Missing") := rfl

theorem content_status_eq (doc : PageDoc) :
    (classify_page doc).content_status =
      (if (classify_page doc).word_count ≥ 1000 then "Good"
       else if (classify_page doc).word_count < 300 then "Thin" else "Moderate") := rfl

theorem images_fields_eq (doc : PageDoc) :
    (classify_page doc).images_total = doc.imageAlts.length ∧
    (classify_page doc).images_without_alt
      = doc.imageAlts.length - (doc.imageAlts.filter hasAlt).length := ⟨rfl, rfl⟩

/-! ## Claims C4, C5, C6 -/

/-- C4: for every successfully crawled page, the four status fields are
exactly the fixed threshold functions of their inputs: meta description
Good iff its length is in [150,160] and otherwise Needs Fix; title Good
iff its length is in [50,60] and otherwise Needs Fix; h1 Missing iff the
count is 0, Good iff it is 1, Multiple iff greater than 1; content Thin
iff the word count is below 300, Moderate iff it is in [300,1000), Good
iff at least 1000 (so exactly 300 is Moderate and exactly 1000 is Good). -/
theorem C4_classification_thresholds (doc : PageDoc) :
    ((classify_page doc).meta_desc_status = "Good" ↔
        150 ≤ (classify_page doc).meta_desc_length ∧ (classify_page doc).meta_desc_length ≤ 160) ∧
    ((classify_page doc).meta_desc_status = "Needs Fix" ↔
        ¬ (150 ≤ (classify_page doc).meta_desc_length ∧ (classify_page doc).meta_desc_length ≤ 160)) ∧
    ((classify_page doc).title_status = "Good" ↔
        50 ≤ (classify_page doc).title_length ∧ (classify_page doc).title_length ≤ 60) ∧
    ((classify_page doc).title_status = "Needs Fix" ↔
        ¬ (50 ≤ (classify_page doc).title_length ∧ (classify_page doc).title_length ≤ 60)) ∧
    ((classify_page doc).h1_status = "Missing" ↔ (classify_page doc).h1_count = 0) ∧
    ((classify_page doc).h1_status = "Good" ↔ (classify_page doc).h1_count = 1) ∧
    ((classify_page doc).h1_status = "Multiple" ↔ 1 < (classify_page doc).h1_count) ∧
    ((classify_page doc).content_status = "Thin" ↔ (classify_page doc).word_count < 300) ∧
    ((classify_page doc).content_status = "Moderate" ↔
        300 ≤ (classify_page doc).word_count ∧ (classify_page doc).word_count < 1000) ∧
    ((classify_page doc).content_status = "Good" ↔ 1000 ≤ (classify_page doc).word_count) := by
  rw [meta_status_eq, title_status_eq, h1_status_eq, content_status_eq]
  generalize (classify_page doc).meta_desc_length = m
  generalize (classify_page doc).title_length = t
  generalize (classify_page doc).h1_count = k
  generalize (classify_page doc).word_count = w
  refine ⟨str_ite_eq_then rfl (by decide), str_ite_eq_else (by decide) rfl,
    str_ite_eq_then rfl (by decide), str_ite_eq_else (by decide) rfl, ?_, ?_, ?_, ?_, ?_, ?_⟩
  · rcases Nat.lt_trichotomy k 1 with h | h | h
    · have h0 : k = 0 := by omega
      subst h0; simp
    · subst h; constructor
      · intro hs; exact absurd hs (by decide)
      · omega
    · have hk : (k == 1) = false := by simp; omega
      simp only [hk, Bool.false_eq_true, if_false, h, if_pos]
      constructor
      · intro hs; exact absurd hs (by decide)
      · omega
  · rcases Nat.lt_trichotomy k 1 with h | h | h
    · have h0 : k = 0 := by omega
      subst h0; simp
    · subst h; simp
    · have hk : (k == 1) = false := by simp; omega
      simp only [hk, Bool.false_eq_true, if_false, h, if_pos]
      constructor
      · intro hs; exact absurd hs (by decide)
      · omega
  · rcases Nat.lt_trichotomy k 1 with h | h | h
    · have h0 : k = 0 := by omega
      subst h0; simp
    · subst h; constructor
      · intro hs; exact absurd hs (by decide)
      · omega
    · have hk : (k == 1) = false := by simp; omega
      simp only [hk, Bool.false_eq_true, if_false, h, if_pos]
  · by_cases h1 : 1000 ≤ w
    · rw [if_pos h1]; constructor
      · intro hs; exact absurd hs (by decide)
      · omega
    · rw [if_neg h1]; by_cases h2 : w < 300
      · rw [if_pos h2]; simp [h2]
      · rw [if_neg h2]; constructor
        · intro hs; exact absurd hs (by decide)
        · omega
  · by_cases h1 : 1000 ≤ w
    · rw [if_pos h1]; constructor
      · intro hs; exact absurd hs (by decide)
      · omega
    · rw [if_neg h1]; by_cases h2 : w < 300
      · rw [if_pos h2]; constructor
        · intro hs; exact absurd hs (by decide)
        · omega
      · rw [if_neg h2]; constructor
        · intro _; omega
        · intro _; rfl
  · by_cases h1 : 1000 ≤ w
    · rw [if_pos h1]; simp [h1]
    · rw [if_neg h1]; by_cases h2 : w < 300
      · rw [if_pos h2]; constructor
        · intro hs; exact absurd hs (by decide)
        · omega
      · rw [if_neg h2]; constructor
        · intro hs; exact absurd hs (by decide)
        · omega

/-- C5: every fetch or parse failure is captured and returned as data:
the result has `crawl_success = false`, a non-empty error message, and no
signal fields; nothing is raised past the function boundary (the Lean
embedding is a total function of the fetch outcome). -/
theorem C5_failure_isolation (e : String) (he : e ≠ "") :
    (crawl_website_onpage (.error e)).crawl_success = false ∧
    (∃ m, (crawl_website_onpage (.error e)).errorMessage = some m ∧ m ≠ "") ∧
    (crawl_website_onpage (.error e)).signals = none :=
  ⟨rfl, ⟨e, rfl, he⟩, rfl⟩

theorem C5_failure_isolation_witness :
    (crawl_website_onpage (.error "timed out")).crawl_success = false ∧
    (∃ m, (crawl_website_onpage (.error "timed out")).errorMessage = some m ∧ m ≠ "") ∧
    (crawl_website_onpage (.error "timed out")).signals = none :=
  C5_failure_isolation "timed out" (by decide)

/-- C6: for every classified page, `images_without_alt` is the total
image count minus the number of images whose alt attribute is present and
non-empty, the two parts sum back to the total, and the difference never
exceeds the total. -/
theorem C6_images_invariant (doc : PageDoc) :
    (classify_page doc).images_without_alt
        = (classify_page doc).images_total - (doc.imageAlts.filter hasAlt).length ∧
    (classify_page doc).images_without_alt + (doc.imageAlts.filter hasAlt).length
        = (classify_page doc).images_total ∧
    (classify_page doc).images_without_alt ≤ (classify_page doc).images_total := by
  obtain ⟨ht, hw⟩ := images_fields_eq doc
  have hle : (doc.imageAlts.filter hasAlt).length ≤ doc.imageAlts.length :=
    List.length_filter_le _ _
  rw [ht, hw]
  omega

/-! ## Claims C7, C8, C9 -/

/-- C7 counterexample: the claim says the site-audit snapshot request and
the paginated detail requests carry a fixed 30-unit timeout; in the source
those two `requests.get` calls pass no timeout argument at all. -/
theorem C7_counterexample :
    ¬ (snapshot_request_timeout = some 30 ∧ issue_details_request_timeout = some 30) := by
  decide

/-- C7 (amended): the page fetch in the crawler carries a fixed 10-unit
timeout and the flat-text provider call in `make_request` a fixed 30-unit
timeout; the site-audit snapshot request and the paginated issue-detail
requests carry no timeout at all. -/
theorem C7_request_timeouts :
    crawl_request_timeout = some 10 ∧ make_request_timeout = some 30 ∧
    snapshot_request_timeout = none ∧ issue_details_request_timeout = none := by
  decide

/-- C8 counterexample: a 200 response whose body contains lowercase
"error" but not the literal substring "ERROR" is still rejected, because
the source uppercases the body before the substring test; the claim as
stated predicts the parsed table would be returned. -/
theorem C8_counterexample :
    listContainsSub "a;b\nerror;2".toList "ERROR".toList = false ∧
    parse_response "a;b\nerror;2" ≠ none ∧
    make_request (some (200, "a;b\nerror;2")) = none := by
  refine ⟨by decide, by decide, by decide⟩

/-- C8 (amended): `make_request` parses and returns the flat-text body
exactly when the status is 200 and the substring "ERROR" is absent from
the uppercased body (a case-insensitive test); on a failed test or on any
exception it returns `none`. -/
theorem C8_make_request_success_test (status : Nat) (body : String) :
    make_request none = none ∧
    make_request (some (status, body)) =
      (if status = 200 ∧ listContainsSub (pyUpper body).toList "ERROR".toList = false
       then parse_response body else none) := by
  refine ⟨rfl, ?_⟩
  by_cases h1 : status = 200
  · by_cases h2 : listContainsSub (pyUpper body).toList "ERROR".toList = false
    · simp [make_request, h1, h2]
    · simp only [Bool.not_eq_false] at h2
      simp [make_request, h1, h2]
  · simp [make_request, h1]

/-- C9 counterexample: the input "httpbin.org" has no scheme, yet the
source leaves it untouched because it begins with the four characters
"http"; the claim as stated predicts "https://" would be prepended. -/
theorem C9_counterexample :
    hasSchemeSeparator "httpbin.org" = false ∧
    normalize_url "httpbin.org" ≠ "https://" ++ "httpbin.org" := by
  refine ⟨by decide, by decide⟩

/-- C9 (amended): the fetched URL is the input verbatim exactly when the
input begins with the literal "http"; otherwise "https://" is prepended.
(The test is `startswith("http")`, not a scheme check.) -/
theorem C9_normalize (s : String) :
    (pyStartsWith s "http" = true → normalize_url s = s) ∧
    (pyStartsWith s "http" = false → normalize_url s = "https://" ++ s) := by
  constructor
  · intro h; simp [normalize_url, h]
  · intro h; simp [normalize_url, h]

theorem C9_normalize_witness :
    normalize_url "example.com" = "https://" ++ "example.com" :=
  (C9_normalize "example.com").2 (by decide)

/-! ## Claims C1, C10 -/

theorem processSection_eq (sev : String) (es : List IssueEntry) :
    ∀ acc, processSection sev es acc = acc ++ sectionRecords sev es := by
  induction es with
  | nil => intro acc; simp [processSection, sectionRecords]
  | cons e rest ih =>
    intro acc
    by_cases h : 0 < e.count
    · simp [processSection, sectionRecords, List.filter_cons, h, ih]
    · simp [processSection, sectionRecords, List.filter_cons, h, ih]

theorem summary_eq (d : AuditData) :
    get_all_issues_summary (some d) =
      (sectionRecords "Error" (d.errors.getD []) ++
       sectionRecords "Warning" (d.warnings.getD []) ++
       sectionRecords "Notice" (d.notices.getD []),
       d.snapshot_id) := by
  obtain ⟨sid, es, ws, ns⟩ := d
  cases es <;> cases ws <;> cases ns <;>
    simp [get_all_issues_summary, processSection_eq, sectionRecords]

/-- C1: the issue summary emits, per section in the order errors then
warnings then notices, exactly one record per entry with positive count
(entries with count 0 are dropped); each record carries the section label
as severity, the taxonomy name with the "Unknown Issue id" fallback, the
entry count, and the entry delta defaulting to 0; the snapshot id of the
response is returned alongside; any transport or parse error yields the
empty list and no snapshot id.  The last conjunct checks the synthetic
response from the spec end to end. -/
theorem C1_issue_summary (d : AuditData) :
    get_all_issues_summary (some d)
      = (sectionRecords "Error" (d.errors.getD []) ++
         sectionRecords "Warning" (d.warnings.getD []) ++
         sectionRecords "Notice" (d.notices.getD []),
         d.snapshot_id) ∧
    get_all_issues_summary none = ([], none) ∧
    (∀ sev es, sectionRecords sev es
        = (es.filter (fun e => decide (0 < e.count))).map (mkIssueRecord sev)) ∧
    (∀ sev e, (mkIssueRecord sev e).issue_id = e.id ∧
        (mkIssueRecord sev e).severity = sev ∧
        (mkIssueRecord sev e).count = e.count ∧
        (mkIssueRecord sev e).delta = e.delta.getD 0 ∧
        (mkIssueRecord sev e).issue_name
          = (ISSUE_MAPPING.lookup e.id).getD ("Unknown Issue " ++ toString e.id)) ∧
    get_all_issues_summary (some sampleAudit)
      = ([⟨3, "Title tag is missing or empty", "Error", 5, 0⟩,
          ⟨101, "Title element is too short", "Warning", 2, -1⟩], some "S1") := by
  refine ⟨summary_eq d, rfl, fun sev es => rfl, fun sev e => ⟨rfl, rfl, rfl, rfl, rfl⟩, by decide⟩

theorem mem_sectionRecords_severity (sev : String) (es : List IssueEntry) :
    ∀ r ∈ sectionRecords sev es, r.severity = sev := by
  intro r hr
  simp only [sectionRecords, List.mem_map] at hr
  obtain ⟨e, _, he⟩ := hr
  rw [← he]; rfl

/-- C10: in the summary list every Error record precedes every Warning
record and every Warning record precedes every Notice record (severity
rank is monotone along the list), and within each severity the records
appear in the order of the corresponding entries of that section. -/
theorem C10_summary_order (d : AuditData) :
    (get_all_issues_summary (some d)).1.Pairwise
        (fun a b => sevRank a.severity ≤ sevRank b.severity) ∧
    (get_all_issues_summary (some d)).1.filter (fun r => r.severity == "Error")
        = sectionRecords "Error" (d.errors.getD []) ∧
    (get_all_issues_summary (some d)).1.filter (fun r => r.severity == "Warning")
        = sectionRecords "Warning" (d.warnings.getD []) ∧
    (get_all_issues_summary (some d)).1.filter (fun r => r.severity == "Notice")
        = sectionRecords "Notice" (d.notices.getD []) := by
  have hfst : (get_all_issues_summary (some d)).1
      = sectionRecords "Error" (d.errors.getD []) ++
        sectionRecords "Warning" (d.warnings.getD []) ++
        sectionRecords "Notice" (d.notices.getD []) := by
    rw [summary_eq]
  have hE := mem_sectionRecords_severity "Error" (d.errors.getD [])
  have hW := mem_sectionRecords_severity "Warning" (d.warnings.getD [])
  have hN := mem_sectionRecords_severity "Notice" (d.notices.getD [])
  rw [hfst]
  refine ⟨?_, ?_, ?_, ?_⟩
  · refine List.pairwise_append.mpr ⟨List.pairwise_append.mpr ⟨?_, ?_, ?_⟩, ?_, ?_⟩
    · exact List.pairwise_of_forall_mem_list
        (fun a ha b hb => by rw [hE a ha, hE b hb])
    · exact List.pairwise_of_forall_mem_list
        (fun a ha b hb => by rw [hW a ha, hW b hb])
    · intro a ha b hb
      rw [hE a ha, hW b hb]; decide
    · exact List.pairwise_of_forall_mem_list
        (fun a ha b hb => by rw [hN a ha, hN b hb])
    · intro a ha b hb
      rcases List.mem_append.mp ha with h | h
      · rw [hE a h, hN b hb]; decide
      · rw [hW a h, hN b hb]; decide
  · rw [List.filter_append, List.filter_append]
    rw [List.filter_eq_self.mpr (fun a ha => by rw [hE a ha]; rfl),
      List.filter_eq_nil_iff.mpr (fun a ha => by rw [hW a ha]; decide),
      List.filter_eq_nil_iff.mpr (fun a ha => by rw [hN a ha]; decide)]
    simp
  · rw [List.filter_append, List.filter_append]
    rw [List.filter_eq_nil_iff.mpr (fun a ha => by rw [hE a ha]; decide),
      List.filter_eq_self.mpr (fun a ha => by rw [hW a ha]; rfl),
      List.filter_eq_nil_iff.mpr (fun a ha => by rw [hN a ha]; decide)]
    simp
  · rw [List.filter_append, List.filter_append]
    rw [List.filter_eq_nil_iff.mpr (fun a ha => by rw [hE a ha]; decide),
      List.filter_eq_nil_iff.mpr (fun a ha => by rw [hW a ha]; decide),
      List.filter_eq_self.mpr (fun a ha => by rw [hN a ha]; rfl)]
    simp

/-! ## Claim C3 -/

/-- C3: `parse_response` is total (never raises); after the Python strip
and newline split it returns `none` when fewer than 2 lines remain, a
single header-to-field mapping (fields split on the semicolon, paired
positionally) when exactly one data line exists, and the ordered list of
such mappings, one per data line and each zipped independently against
the header line, when two or more data lines exist. -/
theorem C3_parse_flat_table (text : String) :
    ((pySplitChar (pyStrip text) '\n').length < 2 → parse_response text = none) ∧
    (∀ l0 l1, pySplitChar (pyStrip text) '\n' = [l0, l1] →
        parse_response text
          = some (.single (pyDictZip (pySplitChar l0 ';') (pySplitChar l1 ';')))) ∧
    (∀ l0 l1 l2 rest, pySplitChar (pyStrip text) '\n' = l0 :: l1 :: l2 :: rest →
        parse_response text
          = some (.multi ((l1 :: l2 :: rest).map
              (fun line => pyDictZip (pySplitChar l0 ';') (pySplitChar line ';'))))) := by
  refine ⟨?_, ?_, ?_⟩
  · intro hlen
    simp only [parse_response]
    rcases hsp : pySplitChar (pyStrip text) '\n' with _ | ⟨a, _ | ⟨b, tl⟩⟩
    · rfl
    · rfl
    · rw [hsp] at hlen
      simp only [List.length_cons] at hlen
      omega
  · intro l0 l1 heq
    simp only [parse_response]
    rw [heq]
    rfl
  · intro l0 l1 l2 rest heq
    simp only [parse_response]
    rw [heq]
    rfl

theorem C3_parse_flat_table_witness :
    parse_response "a;b\nc;d" = some (ParseResult.single [("a", "c"), ("b", "d")]) := by
  have h := (C3_parse_flat_table "a;b\nc;d").2.1 "a;b" "c;d" (by decide)
  rw [h]
  decide

/-! ## Claim C2 -/

theorem get_issue_details_go_spec (resp : Nat → DetailResponse) :
    ∀ (fuel page : Nat) (acc : List String) (reqs : List Nat)
      (recs : List String) (tot : Nat) (outreqs : List Nat),
      get_issue_details_go resp fuel page acc reqs = some (recs, tot, outreqs) →
      ∃ k, 0 < k ∧
        outreqs = reqs ++ List.range' page k ∧
        recs = acc ++ ((List.range' page k).map (pageRecs resp)).flatten ∧
        tot = ((resp (page + (k - 1))).total).getD 0 ∧
        (pageRecs resp (page + (k - 1)) = [] ∨ tot ≤ recs.length) ∧
        (∀ i, i + 1 < k →
          pageRecs resp (page + i) ≠ [] ∧
          (acc ++ ((List.range' page (i + 1)).map (pageRecs resp)).flatten).length
            < ((resp (page + i)).total).getD 0) := by
  intro fuel
  induction fuel with
  | zero =>
    intro page acc reqs recs tot outreqs h
    exact absurd h (by simp [get_issue_details_go])
  | succ n ih =>
    intro page acc reqs recs tot outreqs h
    simp only [get_issue_details_go] at h
    split at h
    · rename_i hd
      simp only [Option.some.injEq, Prod.mk.injEq] at h
      obtain ⟨h1, h2, h3⟩ := h
      refine ⟨1, Nat.one_pos, ?_, ?_, ?_, ?_, ?_⟩
      · rw [← h3]; simp [List.range']
      · rw [← h1]; simp [List.range', pageRecs, hd]
      · rw [← h2]; simp
      · left; simp [pageRecs, hd]
      · intro i hi; exact absurd hi (by omega)
    · rename_i pd hd
      split at h
      · rename_i hemp
        have hpd : pd = [] := List.isEmpty_iff.mp hemp
        simp only [Option.some.injEq, Prod.mk.injEq] at h
        obtain ⟨h1, h2, h3⟩ := h
        refine ⟨1, Nat.one_pos, ?_, ?_, ?_, ?_, ?_⟩
        · rw [← h3]; simp [List.range']
        · rw [← h1]; simp [List.range', pageRecs, hd, hpd]
        · rw [← h2]; simp
        · left; simp [pageRecs, hd, hpd]
        · intro i hi; exact absurd hi (by omega)
      · rename_i hemp
        split at h
        · rename_i hstop
          simp only [Option.some.injEq, Prod.mk.injEq] at h
          obtain ⟨h1, h2, h3⟩ := h
          refine ⟨1, Nat.one_pos, ?_, ?_, ?_, ?_, ?_⟩
          · rw [← h3]; simp [List.range']
          · rw [← h1]; simp [List.range', pageRecs, hd]
          · rw [← h2]; simp
          · right; rw [← h2, ← h1]; simpa using hstop
          · intro i hi; exact absurd hi (by omega)
        · rename_i hstop
          obtain ⟨k, hk, h1, h2, h3, h4, h5⟩ :=
            ih (page + 1) (acc ++ pd) (reqs ++ [page]) recs tot outreqs h
          have hrange : List.range' page (k + 1) = page :: List.range' (page + 1) k :=
            List.range'_succ page k 1
          have hidx : page + 1 + (k - 1) = page + (k + 1 - 1) := by omega
          refine ⟨k + 1, Nat.succ_pos k, ?_, ?_, ?_, ?_, ?_⟩
          · rw [h1, hrange]; simp
          · rw [h2, hrange]; simp [pageRecs, hd]
          · rw [h3, hidx]
          · rw [← hidx]; exact h4
          · intro i hi
            cases i with
            | zero =>
              simp only [Nat.zero_add, Nat.add_zero]
              constructor
              · simp only [pageRecs, hd, Option.getD_some]
                intro hc
                exact hemp (by rw [hc]; rfl)
              · have hone : List.range' page 1 = [page] := by simp [List.range']
                rw [hone]
                simp only [List.map_cons, List.map_nil, List.flatten_cons,
                  List.flatten_nil, List.append_nil, pageRecs, hd, Option.getD_some]
                omega
            | succ j =>
              have hj := h5 j (by omega)
              have e1 : page + 1 + j = page + (j + 1) := by omega
              rw [e1] at hj
              constructor
              · exact hj.1
              · have hrangej :
                    List.range' page (j + 1 + 1) = page :: List.range' (page + 1) (j + 1) :=
                  List.range'_succ page (j + 1) 1
                rw [hrangej]
                simp only [List.map_cons, List.flatten_cons, pageRecs, hd, Option.getD_some]
                rw [← List.append_assoc]
                exact hj.2

set_option maxRecDepth 40000 in
/-- C2: `get_issue_details` requests pages 1, 2, 3, ... in order; every
request but the last hit a page with records and a running total still
below that response's reported total; the last request hit an empty page
or made the running total reach the reported total; the result is the
concatenation of the served pages in request order together with the last
response's reported total.  The second conjunct runs the spec scenario:
pages of 100, 100 and 37 records with total 237 yield exactly 237 records
and requests for pages 1, 2 and 3 only. -/
theorem C2_issue_details (resp : Nat → DetailResponse) (fuel : Nat)
    (recs : List String) (tot : Nat) (reqs : List Nat)
    (h : get_issue_details resp fuel = some (recs, tot, reqs)) :
    (∃ k, 0 < k ∧ reqs = List.range' 1 k ∧
      recs = ((List.range' 1 k).map (pageRecs resp)).flatten ∧
      tot = ((resp k).total).getD 0 ∧
      (pageRecs resp k = [] ∨ tot ≤ recs.length) ∧
      (∀ i, i + 1 < k →
        pageRecs resp (1 + i) ≠ [] ∧
        (((List.range' 1 (i + 1)).map (pageRecs resp)).flatten).length
          < ((resp (1 + i)).total).getD 0)) ∧
    get_issue_details resp237 5 = some (List.replicate 237 "r", 237, [1, 2, 3]) := by
  constructor
  · obtain ⟨k, hk, h1, h2, h3, h4, h5⟩ :=
      get_issue_details_go_spec resp fuel 1 [] [] recs tot reqs h
    have e : 1 + (k - 1) = k := by omega
    rw [e] at h3 h4
    refine ⟨k, hk, by simpa using h1, by simpa using h2, h3, h4, fun i hi => ?_⟩
    have hcont := h5 i hi
    simpa using hcont
  · decide

set_option maxRecDepth 40000 in
theorem C2_issue_details_witness :
    (∃ k, 0 < k ∧ ([1, 2, 3] : List Nat) = List.range' 1 k ∧
      (List.replicate 237 "r" : List String)
        = ((List.range' 1 k).map (pageRecs resp237)).flatten ∧
      (237 : Nat) = ((resp237 k).total).getD 0 ∧
      (pageRecs resp237 k = [] ∨ 237 ≤ (List.replicate 237 "r" : List String).length) ∧
      (∀ i, i + 1 < k →
        pageRecs resp237 (1 + i) ≠ [] ∧
        (((List.range' 1 (i + 1)).map (pageRecs resp237)).flatten).length
          < ((resp237 (1 + i)).total).getD 0)) ∧
    get_issue_details resp237 5 = some (List.replicate 237 "r", 237, [1, 2, 3]) :=
  C2_issue_details resp237 5 (List.replicate 237 "r") 237 [1, 2, 3] (by decide)
